import Mathlib

/-!
Verification development for the CLIvilization game engine
(src/engine/src/game/state.rs and src/engine/src/game/mod.rs).

This file gives a shallow embedding of the simulation core: the data model
(civilizations, cities, production queues, travels, popups, the aggregate
game state), the economy operations (start_construction, start_recruitment),
the combat and travel resolver (start_attack, the weighted shortest-path
search, on_turn_start), the action parser (submit_action, apply_action) and
the popup state machine (submit_popup), together with proofs about them.

Embedding conventions:
- Rust i32 fields are modelled as Int, u32 and usize fields as Nat.
  None of the verified claims exercises 32-bit overflow, so machine wrapping
  is not modelled.
- Rust Vec is modelled as List; in-place mutation becomes explicit state
  passing.
- Rendering-only fields of GameState (seed_editing, camera_x, camera_y,
  camera_mode, map_buffer_cache, zoom_level, ai_thinking) are omitted: no
  operation modelled here reads or writes them.
- The prerequisites field of BuildingDef and the whitelist and blacklist
  fields of City are omitted: the engine never reads them.
- Indexing a Vec out of bounds panics in Rust; in the embedding those
  spots return the state unchanged (with an error where the source returns
  one).  No modelled caller reaches them.
- Rust string handling (trim, to_lowercase, split_whitespace, starts_with,
  numeric parse) is modelled on Lean strings; to_lowercase agrees on the
  ASCII data the engine uses, and numeric parse is modelled without the
  usize upper bound (overflowing inputs lead to the same downstream
  behaviour in every modelled call site).
-/

namespace CLIv

/-- Terrain of one map tile (src/engine/src/game/map.rs). -/
inductive Terrain where
  | Water
  | Plains
  | Desert
  | Mountain
deriving DecidableEq

/-- Player kind tag of a city (generated AST type PlayerType). -/
inductive PlayerType where
  | PLAYER
  | AI
deriving DecidableEq

/-- Kind of a building production (generated AST type ProductionType).
The source compares the Debug rendering of this enum, lowercased, against
the literals "ressource" and "unit"; that test is equivalent to equality
with the corresponding constructor. -/
inductive ProductionType where
  | RESSOURCE
  | UNIT
deriving DecidableEq

/-- Production effect of a building template (generated AST type). -/
structure Production where
  amount : Nat
  cost : Nat
  prod_type : ProductionType
  prod_unit_id : Option String
  time : Nat
deriving DecidableEq

/-- Immutable building template (generated AST type BuildingDef). -/
structure BuildingDef where
  name : String
  cost : Nat
  build_time : Nat
  production : Production
  slots : Nat
deriving DecidableEq

/-- Immutable unit template (generated AST type UnitDef). -/
structure UnitDef where
  name : String
  attack : Nat
deriving DecidableEq

/-- A completed building instance owned by a city. -/
structure BuildingInstance where
  id_building : String
  level : Nat
deriving DecidableEq

/-- Wrapper array of building instances (generated AST type). -/
structure BuildingInstanceArray where
  elements : List BuildingInstance
deriving DecidableEq

/-- A stack of identical units owned by a city. -/
structure UnitInstance where
  id_units : String
  nb_units : Nat
deriving DecidableEq

/-- Wrapper array of unit stacks (generated AST type). -/
structure UnitInstanceArray where
  units : List UnitInstance
deriving DecidableEq

/-- A city (generated AST type City); rendering-only and never-read fields
are omitted as described in the file header. -/
structure City where
  name : String
  x : Nat
  y : Nat
  color : String
  nb_slots_buildings : Nat
  nb_slots_units : Nat
  player_type : PlayerType
  starting_resources : Nat
  buildings : BuildingInstanceArray
  units : UnitInstanceArray
deriving DecidableEq

/-- Resource pool of a civilization (state.rs, struct Resources). -/
structure Resources where
  ressources : Int
deriving DecidableEq

/-- An in-progress building construction (state.rs, struct Construction). -/
structure Construction where
  id_building : String
  remaining : Nat
  total : Nat
deriving DecidableEq

/-- An in-progress unit recruitment (state.rs, struct Recruitment). -/
structure Recruitment where
  id_unit : String
  remaining : Nat
  amount : Nat
deriving DecidableEq

/-- A traveling attack force (state.rs, struct Travel). -/
structure Travel where
  attacker : Nat
  defender : Nat
  amount : Nat
  remaining : Nat
  total : Nat
  path : List (Int × Int)
deriving DecidableEq

/-- A popup dialog (state.rs, struct Popup). -/
structure Popup where
  title : String
  prompt : String
  choices : List String
  input : String
deriving DecidableEq

/-- A civilization (state.rs, struct Civilization). -/
structure Civilization where
  resources : Resources
  city : City
  alive : Bool
  constructions : List Construction
  recruitments : List Recruitment
deriving DecidableEq

/-- The terrain grid (map.rs, struct GameMap). -/
structure GameMap where
  tiles : List (List Terrain)
  width : Nat
  height : Nat
  seed : String
deriving DecidableEq

/-- The aggregate game state (state.rs, struct GameState); rendering-only
fields are omitted as described in the file header. -/
structure GameState where
  map : GameMap
  turn : Int
  player_turn : Nat
  civilizations : List Civilization
  buildings : List BuildingDef
  units : List UnitDef
  nb_turns : Nat
  resources_spent : Nat
  action_editing : Bool
  action_input : String
  popup : Option Popup
  travels : List Travel
  game_over : Bool
deriving DecidableEq

/-! ## String helpers mirroring the Rust standard library

These are written over the character list of the string so that they
compute by structural recursion (the Lean standard library versions use
iterator machinery that does not reduce inside the kernel).  They agree
with the Rust originals on the ASCII data the engine uses. -/

/-- Rust str::starts_with, modelled as character-list prefix. -/
def strStartsWith (s pre : String) : Bool :=
  pre.toList.isPrefixOf s.toList

/-- Lowercase one ASCII character (Rust str::to_lowercase, ASCII range). -/
def lowerChar (c : Char) : Char :=
  if 65 ≤ c.toNat ∧ c.toNat ≤ 90 then Char.ofNat (c.toNat + 32) else c

/-- Rust str::to_lowercase (ASCII range). -/
def lowerStr (s : String) : String :=
  ⟨s.toList.map lowerChar⟩

/-- Rust str::trim: drop leading and trailing whitespace. -/
def trimStr (s : String) : String :=
  ⟨((s.toList.dropWhile Char.isWhitespace).reverse.dropWhile
      Char.isWhitespace).reverse⟩

/-- Accumulator loop behind splitWs. -/
def splitWsAux : List Char → List Char → List String
  | [], acc => if acc = [] then [] else [⟨acc.reverse⟩]
  | c :: rest, acc =>
    if c.isWhitespace then
      if acc = [] then splitWsAux rest []
      else ⟨acc.reverse⟩ :: splitWsAux rest []
    else splitWsAux rest (c :: acc)

/-- Rust str::split_whitespace: maximal non-whitespace runs, in order. -/
def splitWs (s : String) : List String :=
  splitWsAux s.toList []

/-- Rust str::parse into an unsigned integer: an optional leading plus sign
followed by one or more ASCII digits.  The usize/u32 upper bound is not
modelled (see the file header). -/
def parseNum (s : String) : Option Nat :=
  let cs := s.toList
  let ds := match cs with
    | '+' :: rest => rest
    | _ => cs
  if ds ≠ [] ∧ ds.all Char.isDigit then
    some (ds.foldl (fun a c => a * 10 + (c.toNat - 48)) 0)
  else
    none

/-! ## Elementary state operations -/

/-- state.rs GameState::open_popup. -/
def GameState.open_popup (s : GameState) (title prompt : String)
    (choices : List String) : GameState :=
  { s with
    popup := some { title := title, prompt := prompt, choices := choices, input := "" },
    action_editing := false }

/-- state.rs GameState::close_popup. -/
def GameState.close_popup (s : GameState) : GameState :=
  { s with popup := none }

/-- Replace civilization number i (Rust writes through an index borrow). -/
def GameState.setCiv (s : GameState) (i : Nat) (civ : Civilization) : GameState :=
  { s with civilizations := s.civilizations.set i civ }

/-- state.rs GameState::calculate_city_power: sum over the unit stacks of
stack size times the template attack value (0 when the template is missing). -/
def GameState.calculate_city_power (s : GameState) (civ_index : Nat) : Int :=
  match s.civilizations.get? civ_index with
  | none => 0
  | some civ =>
    civ.city.units.units.foldl
      (fun power u =>
        power + (u.nb_units : Int) *
          (match s.units.find? (fun d => d.name == u.id_units) with
           | some d => (d.attack : Int)
           | none => 0))
      0

/-- The stack-list part of state.rs GameState::remove_units_from_city:
walk the stacks in list order, removing whole stacks while they fit in the
remainder and splitting the first stack that does not; returns the new list
and the number of units actually removed. -/
def removeUnits : List UnitInstance → Nat → (List UnitInstance × Nat)
  | us, 0 => (us, 0)
  | [], _ => ([], 0)
  | u :: rest, n =>
    if u.nb_units ≤ n then
      let r := removeUnits rest (n - u.nb_units)
      (r.1, u.nb_units + r.2)
    else
      ({ u with nb_units := u.nb_units - n } :: rest, n)

/-- state.rs GameState::remove_units_from_city lifted to the game state. -/
def GameState.remove_units_from_city (s : GameState) (civ_index : Nat)
    (to_remove : Nat) : GameState × Nat :=
  match s.civilizations.get? civ_index with
  | none => (s, 0)
  | some civ =>
    let r := removeUnits civ.city.units.units to_remove
    (s.setCiv civ_index { civ with city := { civ.city with units := ⟨r.1⟩ } }, r.2)

/-! ## Economy operations -/

/-- state.rs GameState::start_construction.  Returns the new state together
with the error message, if any (Rust mutates in place and returns Result). -/
def GameState.start_construction (s : GameState) (civ_index : Nat)
    (building_name : String) : GameState × Option String :=
  match s.buildings.find? (fun b => b.name == building_name) with
  | none => (s, some ("Unknown building: " ++ building_name))
  | some bdef =>
    match s.civilizations.get? civ_index with
    | none => (s, some "index out of bounds")
    | some civ =>
      let occupied := civ.city.buildings.elements.length + civ.constructions.length
      if civ.constructions ≠ [] then
        (s, some "Another construction is already in progress")
      else if civ.city.nb_slots_buildings ≤ occupied then
        (s, some "No available building slots")
      else if civ.resources.ressources < (bdef.cost : Int) then
        (s, some "Not enough resources for building")
      else
        (s.setCiv civ_index
          { civ with
            resources := ⟨civ.resources.ressources - (bdef.cost : Int)⟩,
            constructions := civ.constructions ++
              [{ id_building := bdef.name, remaining := bdef.build_time,
                 total := bdef.build_time }] },
         none)

/-- state.rs GameState::start_recruitment. -/
def GameState.start_recruitment (s : GameState) (civ_index : Nat)
    (unit_name : String) : GameState × Option String :=
  match s.units.find? (fun u => u.name == unit_name) with
  | none => (s, some ("Unknown unit: " ++ unit_name))
  | some udef =>
    match s.civilizations.get? civ_index with
    | none => (s, some "index out of bounds")
    | some civ =>
      let producer := civ.city.buildings.elements.findSome?
        (fun b_inst =>
          match s.buildings.find? (fun b => b.name == b_inst.id_building) with
          | some bdef =>
            if bdef.production.prod_type = ProductionType.UNIT ∧
               bdef.production.prod_unit_id = some udef.name then
              some bdef
            else
              none
          | none => none)
      match producer with
      | none => (s, some "No building able to produce this unit is present")
      | some bdef =>
        if civ.recruitments ≠ [] then
          (s, some "Another recruitment is already in progress")
        else if civ.city.nb_slots_units ≤
            civ.city.units.units.length + civ.recruitments.length then
          (s, some "No available unit slots")
        else if civ.resources.ressources < (bdef.production.cost : Int) then
          (s, some "Not enough resources to recruit unit")
        else
          (s.setCiv civ_index
            { civ with
              resources := ⟨civ.resources.ressources - (bdef.production.cost : Int)⟩,
              recruitments := civ.recruitments ++
                [{ id_unit := udef.name, remaining := bdef.production.time,
                   amount := 1 }] },
           none)

/-! ## Weighted shortest-path search (state.rs GameState::bfs_path)

The source runs Dijkstra with a BinaryHeap of Reverse-wrapped (cost, x, y)
triples, an i64 distance matrix initialised to i64::MAX, and scaled integer
step costs (SCALE = 1000 per water step, round(SCALE / 3) = 333 per land
step).  The embedding below keeps the same structure: the heap is a list
popped at its lexicographically least triple (exactly the element a
BinaryHeap of Reverse triples yields), the distance and parent matrices are
finite maps with none standing for i64::MAX / unset, and the main loop
carries explicit fuel.  The Rust loop terminates; fuel exhaustion (which
returns none) is never reached for the concrete inputs evaluated in this
file, and every theorem conditional on a returned path holds for all fuels. -/

/-- One grid cell, Rust (i32, i32). -/
abbrev Cell := Int × Int

/-- Terrain lookup tiles[y][x]; all call sites are bounds checked. -/
def tileAt (m : GameMap) (x y : Int) : Terrain :=
  ((m.tiles.getD y.toNat []).getD x.toNat Terrain.Water)

/-- The scaled integer step cost of entering a tile
(state.rs bfs_path: SCALE for water, (SCALE as f64 / 3.0).round() = 333
for every other passable terrain; mountains are skipped before this cost
is consulted). -/
def stepCostScaled : Terrain → Nat
  | Terrain.Water => 1000
  | _ => 333

/-- Lexicographic order on heap triples: what popping a Rust
BinaryHeap of Reverse (cost, x, y) yields first. -/
def tripleLe (a b : Nat × Cell) : Bool :=
  a.1 < b.1 || (a.1 = b.1 && (a.2.1 < b.2.1 ||
    (a.2.1 = b.2.1 && a.2.2 ≤ b.2.2)))

/-- Pop the least triple from the heap list. -/
def popMin : List (Nat × Cell) → Option ((Nat × Cell) × List (Nat × Cell))
  | [] => none
  | a :: rest =>
    match popMin rest with
    | none => some (a, [])
    | some (m, rest2) =>
      if tripleLe a m then some (a, rest) else some (m, a :: rest2)

/-- Point update of a finite map. -/
def upd (f : Cell → Option α) (c : Cell) (v : α) : Cell → Option α :=
  fun c2 => if c2 = c then some v else f c2

/-- Strict comparison against a distance entry, none meaning i64::MAX. -/
def ltDist (n : Nat) : Option Nat → Bool
  | some d => n < d
  | none => true

/-- The stale-entry test of the main loop: cost strictly above the current
distance entry (never true against an unset entry, which is i64::MAX). -/
def gtDist (n : Nat) : Option Nat → Bool
  | some d => d < n
  | none => false

/-- The four-connected neighbourhood offsets used by bfs_path. -/
def neighborOffsets : List (Int × Int) := [(-1, 0), (1, 0), (0, -1), (0, 1)]

/-- Relax one neighbour of the popped cell (the body of the inner for loop
of bfs_path): bounds check, mountain check, scaled step cost, and the
distance / parent / heap updates when the new cost improves. -/
def relaxStep (m : GameMap) (cost : Nat) (c : Cell)
    (st : (Cell → Option Nat) × (Cell → Option Cell) × List (Nat × Cell))
    (off : Int × Int) :
    (Cell → Option Nat) × (Cell → Option Cell) × List (Nat × Cell) :=
  let nx := c.1 + off.1
  let ny := c.2 + off.2
  if nx < 0 ∨ ny < 0 ∨ (m.width : Int) ≤ nx ∨ (m.height : Int) ≤ ny then st
  else
    let terrain := tileAt m nx ny
    if terrain = Terrain.Mountain then st
    else
      let new_cost := cost + stepCostScaled terrain
      if ltDist new_cost (st.1 (nx, ny)) then
        (upd st.1 (nx, ny) new_cost,
         upd st.2.1 (nx, ny) c,
         (new_cost, (nx, ny)) :: st.2.2)
      else st

/-- Rebuild the path by following parent pointers from the destination;
the source pushes cells into a vector and reverses it, which yields the
list [root, ..., dst] produced here.  Fuel guards the loop. -/
def reconstructPath (parent : Cell → Option Cell) : Nat → Cell → Option (List Cell)
  | 0, _ => none
  | fuel + 1, cur =>
    match parent cur with
    | none => some [cur]
    | some p => (reconstructPath parent fuel p).map (fun l => l ++ [cur])

/-- The main Dijkstra loop of bfs_path. -/
def dijkstraGo (m : GameMap) (dst : Cell) :
    Nat → (Cell → Option Nat) → (Cell → Option Cell) → List (Nat × Cell) →
    Option (List Cell)
  | 0, _, _, _ => none
  | fuel + 1, dist, parent, heap =>
    match popMin heap with
    | none => none
    | some ((cost, c), heap2) =>
      if gtDist cost (dist c) then
        dijkstraGo m dst fuel dist parent heap2
      else if c = dst then
        reconstructPath parent (m.width * m.height + 1) c
      else
        let st := neighborOffsets.foldl (relaxStep m cost c) (dist, parent, heap2)
        dijkstraGo m dst fuel st.1 st.2.1 st.2.2

/-- state.rs GameState::bfs_path (the name is the source's; the algorithm is
Dijkstra).  Fuel is a generous bound on the number of loop iterations. -/
def bfsPath (m : GameMap) (src dst : Cell) : Option (List Cell) :=
  if src.1 < 0 ∨ src.2 < 0 ∨ dst.1 < 0 ∨ dst.2 < 0 then none
  else if (m.width : Int) ≤ src.1 ∨ (m.height : Int) ≤ src.2 ∨
      (m.width : Int) ≤ dst.1 ∨ (m.height : Int) ≤ dst.2 then none
  else
    dijkstraGo m dst (4 * (m.width * m.height + 1) * (m.width * m.height + 1) + 4)
      (fun c => if c = src then some 0 else none)
      (fun _ => none)
      [(0, src)]

/-! ### The f64 travel-time accumulation of start_attack

start_attack sums the per-step travel times in an f64 accumulator
(`total_time += step_time`, with step_time 1.0 for a water step and
1.0 / 3.0 for a land step) and takes the ceiling.  Every value that
arises — 0.0, 1.0, the binary64 nearest value to one third, and every
intermediate rounded sum — is a dyadic rational that is an integer
multiple of 2 ^ (-54), so the accumulator is embedded exactly as its
numerator at fixed scale 2 ^ 54, and one IEEE-754 binary64 addition
becomes: add the scaled numerators exactly, then round the result to 53
significant bits, ties to even.  Exponent overflow and subnormals are out
of range here (the accumulator stays between 0 and the path length).  The
rounded result of a scale-54 sum again sits at scale 2 ^ 54, so the
representation is closed under the loop. -/

/-- Bit length by structural recursion on fuel (so it reduces in the
kernel); 128 bits of fuel covers every numerator the fold can produce. -/
def bitsAux : Nat → Nat → Nat
  | 0, _ => 0
  | fuel + 1, n => if n = 0 then 0 else bitsAux fuel (n / 2) + 1

/-- Number of binary digits of n. -/
def bitLen (n : Nat) : Nat :=
  bitsAux 128 n

/-- Round a nonnegative binary64-scale numerator (value times 2 ^ 54) to
53 significant bits, ties to even: IEEE-754 binary64 rounding of the exact
sum produced by one f64 addition in range. -/
def roundF64sc (n : Nat) : Nat :=
  let b := bitLen n
  if b ≤ 53 then n
  else
    let shift := b - 53
    let m := n / 2 ^ shift
    let r := n % 2 ^ shift
    let half := 2 ^ (shift - 1)
    let m2 := if half < r ∨ (r = half ∧ m % 2 = 1) then m + 1 else m
    m2 * 2 ^ shift

/-- The binary64 value nearest to 1.0 / 3.0, at scale 2 ^ 54: the rounding
of 2 ^ 54 / 3 = 6004799503160661.33... to an integer significand. -/
def f64ThirdScaled : Nat := 6004799503160661

/-- 1.0 at scale 2 ^ 54. -/
def f64OneScaled : Nat := 2 ^ 54

/-- The f64 travel-time fold of start_attack over path[1..] (state.rs,
the total_time loop): step time 1.0 per water step, 1.0 / 3.0 per land
step, a mountain step skipped by a continue the source marks unreachable;
each addition rounds to binary64.  The result is the final accumulator at
scale 2 ^ 54. -/
def pathTimeScaled (m : GameMap) (path : List Cell) : Nat :=
  (path.drop 1).foldl
    (fun acc c =>
      match tileAt m c.1 c.2 with
      | Terrain.Water => roundF64sc (acc + f64OneScaled)
      | Terrain.Mountain => acc
      | _ => roundF64sc (acc + f64ThirdScaled))
    0

/-- Ceiling of a scale-2^54 accumulator value, as f64::ceil followed by
the u32 cast produces for the in-range values of the travel-time fold. -/
def f64CeilScaled (n : Nat) : Nat :=
  (n + (2 ^ 54 - 1)) / 2 ^ 54

/-- The specification's ideal travel cost: the exact per-step sum in
thirds of a turn (3 thirds per water step, 1 third per land step, mountain
steps skipped).  This definition follows the specification's words — the
travel time as "the ceiling of the summed path cost" over per-step costs
of 1 turn (water) and 1/3 turn (land) — and is NOT part of the source
embedding: it exists to be compared against the f64 accumulation the
source actually performs, whose rounding can push the sum past an integer
boundary the exact sum does not cross. -/
def pathThirdsSpec (m : GameMap) (path : List Cell) : Nat :=
  (path.drop 1).foldl
    (fun acc c =>
      match tileAt m c.1 c.2 with
      | Terrain.Water => acc + 3
      | Terrain.Mountain => acc
      | _ => acc + 1)
    0

/-! ## Combat operations -/

/-- state.rs GameState::start_attack.  Returns the new state together with
the error message, if any.  Note the source removes the sent units from the
attacker before running the path search. -/
def GameState.start_attack (s : GameState) (attacker_idx defender_idx : Nat)
    (amount_opt : Option Nat) : GameState × Option String :=
  if s.civilizations.length ≤ attacker_idx ∨
      s.civilizations.length ≤ defender_idx then
    (s, some "Invalid civilization index")
  else if attacker_idx = defender_idx then
    (s, some "Cannot attack yourself")
  else if s.game_over then
    (s, some "Game is over")
  else
    match s.civilizations.get? attacker_idx, s.civilizations.get? defender_idx with
    | some atk, some dfd =>
      if atk.alive = false then (s, some "Attacker is not alive")
      else if dfd.alive = false then (s, some "Target is already defeated")
      else
        let total_units := (atk.city.units.units.map (fun u => u.nb_units)).sum
        if total_units = 0 then (s, some "No units available to send")
        else
          let send_amount := min (amount_opt.getD total_units) total_units
          if send_amount = 0 then (s, some "Invalid amount to send")
          else
            let r := s.remove_units_from_city attacker_idx send_amount
            let s1 := r.1
            let removed := r.2
            if removed = 0 then (s1, some "Failed to remove units")
            else
              let src : Cell := ((atk.city.x : Int), (atk.city.y : Int))
              let dst : Cell := ((dfd.city.x : Int), (dfd.city.y : Int))
              match bfsPath s1.map src dst with
              | none => (s1, some "No path to target (blocked by terrain)")
              | some path =>
                let turns0 := f64CeilScaled (pathTimeScaled s1.map path)
                let turns := if turns0 = 0 then 1 else turns0
                ({ s1 with travels := s1.travels ++
                    [{ attacker := attacker_idx, defender := defender_idx,
                       amount := removed, remaining := turns, total := turns,
                       path := path }] },
                 none)
    | _, _ => (s, some "Invalid civilization index")

/-! ## Turn-start processing (state.rs GameState::on_turn_start) -/

/-- Merge a recruited batch into the city stacks: bump the first stack with
the same template id, or push a new stack at the end. -/
def mergeUnit (units : List UnitInstance) (id : String) (amt : Nat) :
    List UnitInstance :=
  match units with
  | [] => [{ id_units := id, nb_units := amt }]
  | u :: rest =>
    if u.id_units == id then { u with nb_units := u.nb_units + amt } :: rest
    else u :: mergeUnit rest id amt

/-- The per-civilization economy step of on_turn_start: credit resource
production of completed buildings, decrement construction and recruitment
timers, and finalize the entries that reach zero (the source removes
finished entries at descending indices, hence the reversed finalize
order). -/
def econCiv (defs : List BuildingDef) (civ : Civilization) : Civilization :=
  let gained : Int := civ.city.buildings.elements.foldl
    (fun acc b_inst =>
      match defs.find? (fun b => b.name == b_inst.id_building) with
      | some bdef =>
        if bdef.production.prod_type = ProductionType.RESSOURCE then
          acc + (bdef.production.amount : Int)
        else acc
      | none => acc)
    0
  let civ := { civ with resources := ⟨civ.resources.ressources + gained⟩ }
  let decCons := civ.constructions.map
    (fun (c : Construction) =>
      if 0 < c.remaining then { c with remaining := c.remaining - 1 } else c)
  let finishedC := decCons.filter (fun c => c.remaining == 0)
  let keptC := decCons.filter (fun c => c.remaining != 0)
  let civ :=
    { civ with
      constructions := keptC,
      city := { civ.city with buildings :=
        ⟨civ.city.buildings.elements ++
          finishedC.reverse.map
            (fun (c : Construction) =>
              ({ id_building := c.id_building, level := 1 } : BuildingInstance))⟩ } }
  let decRecs := civ.recruitments.map
    (fun (r : Recruitment) =>
      if 0 < r.remaining then { r with remaining := r.remaining - 1 } else r)
  let finishedR := decRecs.filter (fun (r : Recruitment) => r.remaining == 0)
  let keptR := decRecs.filter (fun (r : Recruitment) => r.remaining != 0)
  { civ with
    recruitments := keptR,
    city := { civ.city with units :=
      ⟨finishedR.reverse.foldl
        (fun (us : List UnitInstance) (r : Recruitment) => mergeUnit us r.id_unit r.amount)
        civ.city.units.units⟩ } }

/-- Resolve one arrived Travel (the body of the arrival loop of
on_turn_start): skip if either side is dead, otherwise eliminate the
defender when attacker power strictly exceeds defender power, or remove
floor(attacker power / 2) casualties from the defender. -/
def resolveBattle (s : GameState) (t : Travel) : GameState :=
  match s.civilizations.get? t.attacker, s.civilizations.get? t.defender with
  | some atk, some dfd =>
    if atk.alive = false ∨ dfd.alive = false then s
    else
      let attacker_power : Int := (t.amount : Int)
      let defender_power := s.calculate_city_power t.defender
      if defender_power < attacker_power then
        let s := s.setCiv t.defender
          { dfd with alive := false, city := { dfd.city with units := ⟨[]⟩ } }
        s.open_popup "Battle"
          (atk.city.name ++ " attacked " ++ dfd.city.name ++ " (" ++
            toString attacker_power ++ " vs " ++ toString defender_power ++
            ") — defender eliminated")
          []
      else
        let casualties := t.amount / 2
        let r := removeUnits dfd.city.units.units casualties
        let s := s.setCiv t.defender
          { dfd with city := { dfd.city with units := ⟨r.1⟩ } }
        s.open_popup "Battle"
          (atk.city.name ++ " attacked " ++ dfd.city.name ++ " (" ++
            toString attacker_power ++ " vs " ++ toString defender_power ++
            ") — attack failed, defender lost " ++ toString r.2 ++ " units")
          []
  | _, _ => s

/-- Number of civilizations whose alive flag is set. -/
def GameState.aliveCount (s : GameState) : Nat :=
  (s.civilizations.filter (fun c => c.alive)).length

/-- The victory check at the end of on_turn_start: latch game_over when at
most one civilization is alive and the latch is not set yet. -/
def checkVictory (s : GameState) : GameState :=
  if s.aliveCount ≤ 1 then
    if s.game_over then s
    else
      let s := { s with game_over := true }
      match s.civilizations.find? (fun c => c.alive) with
      | some winner => s.open_popup "Game Over" ("Winner: " ++ winner.city.name) []
      | none => s.open_popup "Game Over" "No winners" []
  else s

/-- The travel phase of on_turn_start: decrement every Travel with a
positive remaining count, drop the ones that reach zero, and resolve their
battles (the source removes arrived entries at descending indices, hence
the reversed resolution order). -/
def travelPhase (s : GameState) : GameState :=
  let decT := s.travels.map
    (fun t => if 0 < t.remaining then { t with remaining := t.remaining - 1 } else t)
  let arrived := decT.filter (fun t => t.remaining == 0)
  let kept := decT.filter (fun t => t.remaining != 0)
  arrived.reverse.foldl resolveBattle { s with travels := kept }

/-- state.rs GameState::on_turn_start. -/
def GameState.on_turn_start (s : GameState) (player_index : Nat) : GameState :=
  match s.civilizations.get? player_index with
  | none => s
  | some civ =>
    checkVictory (travelPhase (s.setCiv player_index (econCiv s.buildings civ)))

/-! ## Popup state machine (state.rs GameState::submit_popup) -/

/-- Resolve the popup input against the choice list (the body of the
choices branch of submit_popup): first an exact 1-based numeric index,
then a case-insensitive prefix match taking the first hit. -/
def popupChosen (p : Popup) : Option String :=
  let sel := trimStr p.input
  let byIdx : Option String :=
    match parseNum sel with
    | some idx =>
      if 1 ≤ idx ∧ idx ≤ p.choices.length then p.choices.get? (idx - 1) else none
    | none => none
  match byIdx with
  | some c => some c
  | none => p.choices.find? (fun c => strStartsWith (lowerStr c) (lowerStr sel))

/-- Close the popup and reset the action input (the common tail of
submit_popup). -/
def closeClear (s : GameState) : GameState :=
  { s with popup := none, action_input := "", action_editing := false }

/-- Dispatch a resolved popup choice by the popup title (the match inside
submit_popup).  The returned flag records the early return the source takes
when the dispatched operation fails and its error popup replaces the
current one. -/
def dispatchPopupChoice (s : GameState) (title ch : String) : GameState × Bool :=
  if title = "Build" then
    match s.buildings.find? (fun b => b.name == ch) with
    | some bdef =>
      let r := s.start_construction s.player_turn bdef.name
      match r.2 with
      | some err => (r.1.open_popup "Build" err [], true)
      | none => (r.1, false)
    | none => (s, false)
  else if title = "Hire" then
    match s.units.find? (fun u => u.name == ch) with
    | some udef =>
      let r := s.start_recruitment s.player_turn udef.name
      match r.2 with
      | some err => (r.1.open_popup "Hire" err [], true)
      | none => (r.1, false)
    | none => (s, false)
  else if title = "Attack" then
    match (s.civilizations.enum.find? (fun (ci : Nat × Civilization) => ci.2.city.name == ch)) with
    | some ci =>
      let r := s.start_attack s.player_turn ci.1 none
      match r.2 with
      | some err => (r.1.open_popup "Attack" err [], true)
      | none => (r.1, false)
    | none => (s, false)
  else (s, false)

/-- state.rs GameState::submit_popup. -/
def GameState.submit_popup (s : GameState) : GameState :=
  match s.popup with
  | none => s
  | some popup =>
    if popup.choices ≠ [] then
      match popupChosen popup with
      | some ch =>
        let r := dispatchPopupChoice s popup.title ch
        if r.2 then r.1 else closeClear r.1
      | none => closeClear s
    else closeClear s

/-! ## Action parser (state.rs GameState::submit_action) -/

/-- The build arm of submit_action.  parts are the whitespace-split words of
the lowercased input; the flag is true when a popup was opened. -/
def doBuild (s : GameState) (parts : List String) : GameState × Bool :=
  match parts.get? 1 with
  | none =>
    (s.open_popup "Build" "Choose building type:"
      (s.buildings.map (fun b => b.name)), true)
  | some bname =>
    match s.buildings.find? (fun b => lowerStr b.name == bname) with
    | some bdef =>
      let r := s.start_construction s.player_turn bdef.name
      match r.2 with
      | some err => (r.1.open_popup "Build" err [], true)
      | none => (r.1, false)
    | none => (s.open_popup "Build" ("Unknown building: " ++ bname) [], true)

/-- The hire / recruit arm of submit_action. -/
def doHire (s : GameState) (parts : List String) : GameState × Bool :=
  match parts.get? 1 with
  | none =>
    (s.open_popup "Hire" "Choose unit to hire:"
      (s.units.map (fun u => u.name)), true)
  | some uname =>
    match s.units.find? (fun u => lowerStr u.name == uname) with
    | some udef =>
      let r := s.start_recruitment s.player_turn udef.name
      match r.2 with
      | some err => (r.1.open_popup "Hire" err [], true)
      | none => (r.1, false)
    | none => (s.open_popup "Hire" ("Unknown unit: " ++ uname) [], true)

/-- The attack arm of submit_action. -/
def doAttack (s : GameState) (parts : List String) : GameState × Bool :=
  match parts.get? 1 with
  | none =>
    (s.open_popup "Attack" "Choose player to attack:"
      ((s.civilizations.enum.filter
          (fun (ci : Nat × Civilization) => ci.1 ≠ s.player_turn)).map
        (fun (ci : Nat × Civilization) => ci.2.city.name)), true)
  | some target =>
    match s.civilizations.enum.find?
        (fun (ci : Nat × Civilization) => lowerStr ci.2.city.name == target) with
    | some ci =>
      let amount := match parts.get? 2 with
        | some w => parseNum w
        | none => none
      let r := s.start_attack s.player_turn ci.1 amount
      match r.2 with
      | some err => (r.1.open_popup "Attack" err [], true)
      | none => (r.1, false)
    | none => (s.open_popup "Attack" ("Unknown target: " ++ target) [], true)

/-- state.rs GameState::submit_action: trim and lowercase the action input,
handle end-of-turn, otherwise dispatch on the leading verb; the flag is
true when a popup was opened for further input. -/
def GameState.submit_action (s : GameState) : GameState × Bool :=
  let txt := lowerStr (trimStr s.action_input)
  if txt = "" then
    ({ s with action_editing := false, action_input := "" }, false)
  else if txt = "end" ∨ txt = "end turn" then
    let pt := (s.player_turn + 1) % s.civilizations.length
    let s := { s with player_turn := pt,
                      turn := if pt = 0 then s.turn + 1 else s.turn }
    let s := s.on_turn_start pt
    ({ s with action_input := "", action_editing := false }, false)
  else
    let parts := splitWs txt
    let r : GameState × Bool :=
      match parts.get? 0 with
      | some "build" => doBuild s parts
      | some "hire" => doHire s parts
      | some "recruit" => doHire s parts
      | some "attack" => doAttack s parts
      | _ => (s.open_popup "Action" ("Unknown action: " ++ txt) [], true)
    if r.2 then r
    else ({ r.1 with action_input := "", action_editing := false }, false)

/-! ## Headless API (mod.rs Game) -/

/-- mod.rs Game::apply_action: stage the text as the action input and submit
it; returns whether a popup opened. -/
def applyAction (s : GameState) (action : String) : GameState × Bool :=
  GameState.submit_action { s with action_input := action, action_editing := true }

/-- mod.rs Game::submit_popup_input: write the text into the open popup and
submit it; returns whether a popup was present. -/
def submitPopupInput (s : GameState) (input : String) : GameState × Bool :=
  match s.popup with
  | none => (s, false)
  | some p =>
    (GameState.submit_popup { s with popup := some { p with input := input } }, true)

/-! ## Initial state (state.rs GameState::new)

GameState::new draws a random 160 x 40 map; the embedding takes the map as
a parameter and fixes everything else exactly as the source does. -/

/-- The Farm template of GameState::new. -/
def farmDef : BuildingDef :=
  { name := "Farm", cost := 10, build_time := 2,
    production := { amount := 5, cost := 0,
                    prod_type := ProductionType.RESSOURCE,
                    prod_unit_id := none, time := 1 },
    slots := 1 }

/-- The Barracks template of GameState::new. -/
def barracksDef : BuildingDef :=
  { name := "Barracks", cost := 20, build_time := 4,
    production := { amount := 0, cost := 5,
                    prod_type := ProductionType.UNIT,
                    prod_unit_id := some "Warrior", time := 3 },
    slots := 1 }

/-- The Warrior template of GameState::new. -/
def warriorDef : UnitDef := { name := "Warrior", attack := 1 }

/-- One of the two starting civilizations of GameState::new. -/
def initCiv (nm : String) (px py : Nat) (col : String) (pt : PlayerType) :
    Civilization :=
  { resources := ⟨100⟩,
    city := { name := nm, x := px, y := py, color := col,
              nb_slots_buildings := 5, nb_slots_units := 10,
              player_type := pt, starting_resources := 40,
              buildings := ⟨[]⟩, units := ⟨[]⟩ },
    alive := true, constructions := [], recruitments := [] }

/-- state.rs GameState::new, parameterized by the randomly generated map. -/
def initState (m : GameMap) : GameState :=
  { map := m, turn := 1, player_turn := 0,
    civilizations := [initCiv "Player" 10 10 "#8325D5" PlayerType.PLAYER,
                      initCiv "IA" 20 20 "#FF0000" PlayerType.AI],
    buildings := [farmDef, barracksDef],
    units := [warriorDef],
    nb_turns := 500, resources_spent := 300,
    action_editing := false, action_input := "",
    popup := none, travels := [], game_over := false }

/-! ## The public-operation step relation -/

/-- One application of a public operation, as listed in the specification:
submit_action (through the headless apply_action wrapper, which stages the
input text first), submit_popup (through submit_popup_input, which stages
the popup input first), start_construction, start_recruitment, start_attack,
and on_turn_start. -/
inductive PublicStep : GameState → GameState → Prop where
  | action (s : GameState) (txt : String) : PublicStep s (applyAction s txt).1
  | popup (s : GameState) (txt : String) : PublicStep s (submitPopupInput s txt).1
  | construction (s : GameState) (i : Nat) (name : String) :
      PublicStep s (s.start_construction i name).1
  | recruitment (s : GameState) (i : Nat) (name : String) :
      PublicStep s (s.start_recruitment i name).1
  | attack (s : GameState) (a d : Nat) (amt : Option Nat) :
      PublicStep s (s.start_attack a d amt).1
  | turnStart (s : GameState) (i : Nat) : PublicStep s (s.on_turn_start i)

/-- States reachable from a fresh game (GameState::new with any generated
map) through the public operations. -/
inductive Reachable : GameState → Prop where
  | init (m : GameMap) : Reachable (initState m)
  | step {s s2 : GameState} : Reachable s → PublicStep s s2 → Reachable s2

/-- The slot invariant of the specification: per civilization, completed
buildings plus queued constructions fit in the building slots, and unit
stacks plus queued recruitments fit in the unit slots. -/
def CivOk (c : Civilization) : Prop :=
  c.city.buildings.elements.length + c.constructions.length ≤
    c.city.nb_slots_buildings ∧
  c.city.units.units.length + c.recruitments.length ≤ c.city.nb_slots_units

/-- The slot invariant over all civilizations of a state. -/
def SlotInv (s : GameState) : Prop :=
  ∀ c ∈ s.civilizations, CivOk c

/-- The alive flag of civilization i (false when the index is invalid). -/
def civAlive (s : GameState) (i : Nat) : Bool :=
  match s.civilizations.get? i with
  | some c => c.alive
  | none => false

/-- Invariant of the path search: a parent pointer is only ever set on a
non-mountain cell. -/
def ParentInv (m : GameMap) (parent : Cell → Option Cell) : Prop :=
  ∀ c : Cell, (parent c).isSome = true → tileAt m c.1 c.2 ≠ Terrain.Mountain

/-! ## Concrete states used by the concrete theorems below -/

/-- A city at (px, 0) with the given unit stacks and the default slot
capacities of GameState::new. -/
def mkCity (nm : String) (px : Nat) (us : List UnitInstance) : City :=
  { name := nm, x := px, y := 0, color := "#8325D5",
    nb_slots_buildings := 5, nb_slots_units := 10,
    player_type := PlayerType.PLAYER, starting_resources := 40,
    buildings := ⟨[]⟩, units := ⟨us⟩ }

/-- A civilization owning such a city, alive, with 100 resources and empty
queues. -/
def mkCiv (nm : String) (px : Nat) (us : List UnitInstance) : Civilization :=
  { resources := ⟨100⟩, city := mkCity nm px us, alive := true,
    constructions := [], recruitments := [] }

/-- A small game state over the given map, civilizations, unit templates
and travels; all other fields as in GameState::new. -/
def mkState (m : GameMap) (civs : List Civilization) (uds : List UnitDef)
    (trs : List Travel) : GameState :=
  { map := m, turn := 1, player_turn := 0, civilizations := civs,
    buildings := [farmDef, barracksDef], units := uds,
    nb_turns := 500, resources_spent := 300, action_editing := false,
    action_input := "", popup := none, travels := trs, game_over := false }

/-- A 3 x 1 map whose middle tile is an impassable mountain. -/
def blockedMap : GameMap :=
  ⟨[[Terrain.Plains, Terrain.Mountain, Terrain.Plains]], 3, 1, "s"⟩

/-- A 2 x 1 all-plains map. -/
def openMap : GameMap := ⟨[[Terrain.Plains, Terrain.Plains]], 2, 1, "s"⟩

/-- C1 failing input: a travel of 6 units arrives at a defender whose army
is the stacks [A x 5, B x 1] (both templates with attack 1, so defender
power 6 and the attack fails with floor(6 / 2) = 3 casualties). -/
def casualtyState : GameState :=
  mkState blockedMap
    [mkCiv "A" 0 [], mkCiv "B" 2 [⟨"A", 5⟩, ⟨"B", 1⟩]]
    [⟨"A", 1⟩, ⟨"B", 1⟩]
    [⟨0, 1, 6, 1, 1, []⟩]

/-- C2 failing input: an attacker with five warriors and a defender whose
city is unreachable behind the mountain wall of blockedMap. -/
def noPathState : GameState :=
  mkState blockedMap
    [mkCiv "A" 0 [⟨"Warrior", 5⟩], mkCiv "B" 2 []]
    [warriorDef]
    []

/-- C8 counterexample input: a travel of 7 units arrives at a defenceless
defender when the end command is submitted, so the battle (and then the
game-over check) opens a popup while submit_action returns false. -/
def endPopupState : GameState :=
  mkState blockedMap
    [mkCiv "A" 0 [], mkCiv "B" 2 []]
    [warriorDef]
    [⟨0, 1, 7, 1, 1, []⟩]

/-- C9 counterexample input: the game is already over, yet Farm
construction is affordable and a slot is free. -/
def overState : GameState :=
  { mkState blockedMap [mkCiv "A" 0 [], mkCiv "B" 2 []] [warriorDef] [] with
    game_over := true }

/-- C7 witness input: an attacker with five warriors one plains step away
from the defender. -/
def openAttackState : GameState :=
  mkState openMap
    [mkCiv "A" 0 [⟨"Warrior", 5⟩], mkCiv "B" 1 []]
    [warriorDef]
    []

/-- C7 counterexample input: a 6 x 1 map whose unique attacker-to-defender
path enters the tiles Water, Water, Plains, Plains, Plains.  The f64
accumulation 1.0 + 1.0 + 1/3 + 1/3 + 1/3 rounds to 3.0000000000000004, so
the source records ceil = 4 turns, while the exact per-step sum is 3 turns
(9 thirds). -/
def wideMap : GameMap :=
  ⟨[[Terrain.Plains, Terrain.Water, Terrain.Water, Terrain.Plains,
     Terrain.Plains, Terrain.Plains]], 6, 1, "s"⟩

/-- C7 counterexample input: attacker at (0,0) with five warriors, defender
at (5,0), on wideMap. -/
def longAttackState : GameState :=
  mkState wideMap
    [mkCiv "A" 0 [⟨"Warrior", 5⟩], mkCiv "B" 5 []]
    [warriorDef]
    []

/-- C6 and C10 witness input: an open Build popup over the two default
building choices. -/
def popupState (inp : String) : GameState :=
  { mkState openMap [mkCiv "A" 0 [], mkCiv "B" 1 []] [warriorDef] [] with
    popup := some ⟨"Build", "Choose building type:", ["Farm", "Barracks"], inp⟩ }

/-! ## List bookkeeping lemmas -/

theorem length_filter_not (l : List α) (p : α → Bool) :
    (l.filter p).length + (l.filter (fun a => !(p a))).length = l.length := by
  induction l with
  | nil => simp
  | cons a l ih =>
    by_cases h : p a = true <;> simp [List.filter_cons, h] <;> omega

theorem length_mergeUnit_le (us : List UnitInstance) (id : String) (amt : Nat) :
    (mergeUnit us id amt).length ≤ us.length + 1 := by
  induction us with
  | nil => simp [mergeUnit]
  | cons u rest ih =>
    by_cases h : (u.id_units == id) = true <;> simp [mergeUnit, h] <;> omega

theorem length_foldl_merge_le (rs : List Recruitment) (us : List UnitInstance) :
    (rs.foldl (fun (acc : List UnitInstance) (r : Recruitment) =>
      mergeUnit acc r.id_unit r.amount) us).length ≤ us.length + rs.length := by
  induction rs generalizing us with
  | nil => simp
  | cons r rest ih =>
    have h1 := length_mergeUnit_le us r.id_unit r.amount
    have h2 := ih (mergeUnit us r.id_unit r.amount)
    simp only [List.foldl_cons, List.length_cons]
    omega

theorem removeUnits_length_le (us : List UnitInstance) (n : Nat) :
    (removeUnits us n).1.length ≤ us.length := by
  induction us generalizing n with
  | nil => cases n <;> simp [removeUnits]
  | cons u rest ih =>
    cases n with
    | zero => simp [removeUnits]
    | succ k =>
      by_cases h : u.nb_units ≤ k + 1 <;> simp [removeUnits, h]
      · exact Nat.le_succ_of_le (ih _)

/-! ## Field-preservation lemmas for the elementary operations -/

theorem setCiv_popup (s : GameState) (i : Nat) (c : Civilization) :
    (s.setCiv i c).popup = s.popup := rfl

theorem setCiv_game_over (s : GameState) (i : Nat) (c : Civilization) :
    (s.setCiv i c).game_over = s.game_over := rfl

theorem open_popup_civs (s : GameState) (t p : String) (ch : List String) :
    (s.open_popup t p ch).civilizations = s.civilizations := rfl

theorem open_popup_game_over (s : GameState) (t p : String) (ch : List String) :
    (s.open_popup t p ch).game_over = s.game_over := rfl

theorem closeClear_civs (s : GameState) : (closeClear s).civilizations = s.civilizations := rfl

theorem closeClear_game_over (s : GameState) : (closeClear s).game_over = s.game_over := rfl

/-- Transport of the slot invariant along equal civilization lists. -/
theorem slotInv_of_civs_eq {s s2 : GameState}
    (h : s2.civilizations = s.civilizations) (hs : SlotInv s) : SlotInv s2 := by
  intro c hc
  exact hs c (h ▸ hc)

/-- Updating one civilization with a CivOk value preserves the invariant. -/
theorem slotInv_setCiv {s : GameState} {civ : Civilization} (i : Nat)
    (hs : SlotInv s) (hc : CivOk civ) : SlotInv (s.setCiv i civ) := by
  intro c hmem
  rcases List.mem_or_eq_of_mem_set hmem with h | h
  · exact hs c h
  · exact h ▸ hc

/-- Partition of a list by whether a numeric field is zero. -/
theorem length_filter_zero_ne (l : List α) (f : α → Nat) :
    (l.filter (fun a => f a == 0)).length +
      (l.filter (fun a => f a != 0)).length = l.length := by
  induction l with
  | nil => simp
  | cons a l ih =>
    by_cases h : f a = 0 <;> simp [List.filter_cons, h] <;> omega

/-- The economy step never grows completed plus queued beyond the slot
bounds. -/
theorem civOk_econCiv (defs : List BuildingDef) (civ : Civilization)
    (h : CivOk civ) : CivOk (econCiv defs civ) := by
  obtain ⟨hb, hu⟩ := h
  have hc := length_filter_zero_ne
    (civ.constructions.map (fun (c : Construction) =>
      if 0 < c.remaining then { c with remaining := c.remaining - 1 } else c))
    (fun c => c.remaining)
  have hr := length_filter_zero_ne
    (civ.recruitments.map (fun (r : Recruitment) =>
      if 0 < r.remaining then { r with remaining := r.remaining - 1 } else r))
    (fun r => r.remaining)
  have hm := length_foldl_merge_le
    (((civ.recruitments.map (fun (r : Recruitment) =>
        if 0 < r.remaining then { r with remaining := r.remaining - 1 } else r)).filter
      (fun (r : Recruitment) => r.remaining == 0)).reverse)
    civ.city.units.units
  constructor <;>
    simp only [econCiv, List.length_append, List.length_map, List.length_reverse,
      List.length_cons] at hc hr hm ⊢ <;>
    omega

/-- Battle resolution only removes units, so it preserves the invariant. -/
theorem slotInv_resolveBattle {s : GameState} (t : Travel) (h : SlotInv s) :
    SlotInv (resolveBattle s t) := by
  unfold resolveBattle
  rcases ha : s.civilizations.get? t.attacker with _ | atk <;>
    rcases hd : s.civilizations.get? t.defender with _ | dfd <;>
    simp only [ha, hd]
  any_goals exact h
  obtain ⟨hdb, hdu⟩ := h dfd (List.get?_mem hd)
  split
  · exact h
  · split
    · refine slotInv_of_civs_eq rfl (slotInv_setCiv _ h ?_)
      exact ⟨hdb, by simpa using Nat.le_trans (Nat.le_add_left _ _) hdu⟩
    · refine slotInv_of_civs_eq rfl (slotInv_setCiv _ h ?_)
      refine ⟨hdb, ?_⟩
      have := removeUnits_length_le dfd.city.units.units (t.amount / 2)
      simp only at this ⊢
      omega

/-- Folding battle resolution over arrived travels preserves the invariant. -/
theorem slotInv_foldl_resolve (ts : List Travel) {s : GameState}
    (h : SlotInv s) : SlotInv (ts.foldl resolveBattle s) := by
  induction ts generalizing s with
  | nil => exact h
  | cons t rest ih => exact ih (slotInv_resolveBattle t h)

/-- The travel phase preserves the invariant. -/
theorem slotInv_travelPhase {s : GameState} (h : SlotInv s) :
    SlotInv (travelPhase s) := by
  unfold travelPhase
  exact slotInv_foldl_resolve _ (slotInv_of_civs_eq rfl h)

/-- The victory check does not touch the civilization list. -/
theorem checkVictory_civs (s : GameState) :
    (checkVictory s).civilizations = s.civilizations := by
  unfold checkVictory
  split
  · split
    · rfl
    · simp only []
      split <;> rfl
  · rfl

/-- on_turn_start preserves the slot invariant. -/
theorem slotInv_on_turn_start {s : GameState} (i : Nat) (h : SlotInv s) :
    SlotInv (s.on_turn_start i) := by
  unfold GameState.on_turn_start
  cases hg : s.civilizations.get? i with
  | none => exact h
  | some civ =>
    refine slotInv_of_civs_eq (checkVictory_civs _) ?_
    exact slotInv_travelPhase
      (slotInv_setCiv _ h (civOk_econCiv _ _ (h civ (List.get?_mem hg))))

/-- start_construction preserves the slot invariant (its slot check refuses
the push that would break it). -/
theorem slotInv_start_construction {s : GameState} (i : Nat) (nm : String)
    (h : SlotInv s) : SlotInv (s.start_construction i nm).1 := by
  unfold GameState.start_construction
  cases hf : s.buildings.find? (fun b => b.name == nm) with
  | none => exact h
  | some bdef =>
    cases hg : s.civilizations.get? i with
    | none => exact h
    | some civ =>
      simp only []
      split
      · exact h
      · split
        · exact h
        · split
          · exact h
          · rename_i hne hslot hres
            obtain ⟨hb, hu⟩ := h civ (List.get?_mem hg)
            refine slotInv_setCiv _ h ⟨?_, hu⟩
            have hempty : civ.constructions = [] := by
              by_contra hx
              exact hne hx
            simp only [hempty, List.length_append, List.length_nil,
              List.length_cons] at hb hslot ⊢
            omega

/-- start_recruitment preserves the slot invariant. -/
theorem slotInv_start_recruitment {s : GameState} (i : Nat) (nm : String)
    (h : SlotInv s) : SlotInv (s.start_recruitment i nm).1 := by
  unfold GameState.start_recruitment
  cases hf : s.units.find? (fun u => u.name == nm) with
  | none => exact h
  | some udef =>
    cases hg : s.civilizations.get? i with
    | none => exact h
    | some civ =>
      simp only []
      split
      · exact h
      · split
        · exact h
        · split
          · exact h
          · split
            · exact h
            · rename_i hprod hne hslot hres
              obtain ⟨hb, hu⟩ := h civ (List.get?_mem hg)
              refine slotInv_setCiv _ h ⟨hb, ?_⟩
              have hempty : civ.recruitments = [] := by
                by_contra hx
                exact hne hx
              simp only [hempty, List.length_append, List.length_nil,
                List.length_cons] at hu hslot ⊢
              omega

/-- start_attack preserves the slot invariant (it only removes stacks). -/
theorem slotInv_start_attack {s : GameState} (a d : Nat) (amt : Option Nat)
    (h : SlotInv s) : SlotInv (s.start_attack a d amt).1 := by
  unfold GameState.start_attack
  split
  · exact h
  · split
    · exact h
    · split
      · exact h
      · rcases ha : s.civilizations.get? a with _ | atk <;>
          rcases hd : s.civilizations.get? d with _ | dfd <;>
          simp only [ha, hd]
        any_goals exact h
        obtain ⟨hab, hau⟩ := h atk (List.get?_mem ha)
        have hs1 : SlotInv (s.remove_units_from_city a
            (min ((amt.getD ((atk.city.units.units.map
              (fun u => u.nb_units)).sum)))
              ((atk.city.units.units.map (fun u => u.nb_units)).sum))).1 := by
          unfold GameState.remove_units_from_city
          simp only [ha]
          refine slotInv_setCiv _ h ⟨hab, ?_⟩
          have := removeUnits_length_le atk.city.units.units
            (min ((amt.getD ((atk.city.units.units.map
              (fun u => u.nb_units)).sum)))
              ((atk.city.units.units.map (fun u => u.nb_units)).sum))
          simp only at this ⊢
          omega
        split
        · exact h
        · split
          · exact h
          · split
            · exact h
            · split
              · exact h
              · split
                · exact hs1
                · split
                  · exact hs1
                  · exact slotInv_of_civs_eq rfl hs1

/-- The build arm of the parser preserves the slot invariant. -/
theorem slotInv_doBuild {s : GameState} (parts : List String)
    (h : SlotInv s) : SlotInv (doBuild s parts).1 := by
  unfold doBuild
  split
  · exact h
  · split
    · simp only []
      split
      · exact slotInv_of_civs_eq rfl (slotInv_start_construction _ _ h)
      · exact slotInv_start_construction _ _ h
    · exact h

/-- The hire arm of the parser preserves the slot invariant. -/
theorem slotInv_doHire {s : GameState} (parts : List String)
    (h : SlotInv s) : SlotInv (doHire s parts).1 := by
  unfold doHire
  split
  · exact h
  · split
    · simp only []
      split
      · exact slotInv_of_civs_eq rfl (slotInv_start_recruitment _ _ h)
      · exact slotInv_start_recruitment _ _ h
    · exact h

/-- The attack arm of the parser preserves the slot invariant. -/
theorem slotInv_doAttack {s : GameState} (parts : List String)
    (h : SlotInv s) : SlotInv (doAttack s parts).1 := by
  unfold doAttack
  split
  · exact h
  · split
    · simp only []
      split
      · exact slotInv_of_civs_eq rfl (slotInv_start_attack _ _ _ h)
      · exact slotInv_start_attack _ _ _ h
    · exact h

/-- submit_action preserves the slot invariant. -/
theorem slotInv_submit_action {s : GameState} (h : SlotInv s) :
    SlotInv (s.submit_action).1 := by
  unfold GameState.submit_action
  simp only []
  split
  · exact h
  · split
    · exact slotInv_of_civs_eq rfl
        (slotInv_on_turn_start _ (slotInv_of_civs_eq rfl h))
    · have harm : SlotInv
          (match (splitWs (lowerStr (trimStr s.action_input))).get? 0 with
            | some "build" => doBuild s (splitWs (lowerStr (trimStr s.action_input)))
            | some "hire" => doHire s (splitWs (lowerStr (trimStr s.action_input)))
            | some "recruit" => doHire s (splitWs (lowerStr (trimStr s.action_input)))
            | some "attack" => doAttack s (splitWs (lowerStr (trimStr s.action_input)))
            | _ => (s.open_popup "Action"
                ("Unknown action: " ++ lowerStr (trimStr s.action_input)) [], true)).1 := by
        split
        · exact slotInv_doBuild _ h
        · exact slotInv_doHire _ h
        · exact slotInv_doHire _ h
        · exact slotInv_doAttack _ h
        · exact slotInv_of_civs_eq rfl h
      split
      · exact harm
      · exact slotInv_of_civs_eq rfl harm

/-- apply_action preserves the slot invariant. -/
theorem slotInv_applyAction {s : GameState} (txt : String) (h : SlotInv s) :
    SlotInv (applyAction s txt).1 :=
  slotInv_submit_action (slotInv_of_civs_eq rfl h)

/-- Popup dispatch preserves the slot invariant. -/
theorem slotInv_dispatchPopupChoice {s : GameState} (title ch : String)
    (h : SlotInv s) : SlotInv (dispatchPopupChoice s title ch).1 := by
  unfold dispatchPopupChoice
  split
  · split
    · simp only []
      split
      · exact slotInv_of_civs_eq rfl (slotInv_start_construction _ _ h)
      · exact slotInv_start_construction _ _ h
    · exact h
  · split
    · split
      · simp only []
        split
        · exact slotInv_of_civs_eq rfl (slotInv_start_recruitment _ _ h)
        · exact slotInv_start_recruitment _ _ h
      · exact h
    · split
      · split
        · simp only []
          split
          · exact slotInv_of_civs_eq rfl (slotInv_start_attack _ _ _ h)
          · exact slotInv_start_attack _ _ _ h
        · exact h
      · exact h

/-- submit_popup preserves the slot invariant. -/
theorem slotInv_submit_popup {s : GameState} (h : SlotInv s) :
    SlotInv s.submit_popup := by
  unfold GameState.submit_popup
  split
  · exact h
  · split
    · split
      · simp only []
        split
        · exact slotInv_dispatchPopupChoice _ _ h
        · exact slotInv_of_civs_eq rfl (slotInv_dispatchPopupChoice _ _ h)
      · exact slotInv_of_civs_eq rfl h
    · exact slotInv_of_civs_eq rfl h

/-- submit_popup_input preserves the slot invariant. -/
theorem slotInv_submitPopupInput {s : GameState} (txt : String)
    (h : SlotInv s) : SlotInv (submitPopupInput s txt).1 := by
  unfold submitPopupInput
  split
  · exact h
  · exact slotInv_submit_popup (slotInv_of_civs_eq rfl h)

/-! ## game_over bookkeeping (the latch is only ever written by
checkVictory, and only from false to true) -/

theorem gameOver_remove_units (s : GameState) (i n : Nat) :
    (s.remove_units_from_city i n).1.game_over = s.game_over := by
  unfold GameState.remove_units_from_city
  split <;> rfl

theorem gameOver_start_construction (s : GameState) (i : Nat) (nm : String) :
    (s.start_construction i nm).1.game_over = s.game_over := by
  unfold GameState.start_construction
  simp only []
  repeat' split
  all_goals rfl

theorem gameOver_start_recruitment (s : GameState) (i : Nat) (nm : String) :
    (s.start_recruitment i nm).1.game_over = s.game_over := by
  unfold GameState.start_recruitment
  simp only []
  repeat' split
  all_goals rfl

theorem gameOver_start_attack (s : GameState) (a d : Nat) (amt : Option Nat) :
    (s.start_attack a d amt).1.game_over = s.game_over := by
  unfold GameState.start_attack
  split
  · rfl
  · split
    · rfl
    · split
      · rfl
      · split
        any_goals rfl
        simp only []
        repeat' split
        all_goals first
          | rfl
          | exact gameOver_remove_units s a _

theorem gameOver_resolveBattle (s : GameState) (t : Travel) :
    (resolveBattle s t).game_over = s.game_over := by
  unfold resolveBattle
  simp only []
  repeat' split
  all_goals rfl

theorem gameOver_foldl_resolve (ts : List Travel) (s : GameState) :
    (ts.foldl resolveBattle s).game_over = s.game_over := by
  induction ts generalizing s with
  | nil => rfl
  | cons t rest ih => rw [List.foldl_cons, ih, gameOver_resolveBattle]

theorem gameOver_travelPhase (s : GameState) :
    (travelPhase s).game_over = s.game_over := by
  unfold travelPhase
  rw [gameOver_foldl_resolve]

/-- Alive count only depends on the civilization list. -/
theorem aliveCount_of_civs_eq {s s2 : GameState}
    (h : s2.civilizations = s.civilizations) : s2.aliveCount = s.aliveCount := by
  unfold GameState.aliveCount
  rw [h]

/-- The victory check latches game_over exactly when at most one
civilization is alive. -/
theorem checkVictory_game_over (s : GameState) :
    (checkVictory s).game_over = (s.game_over || decide (s.aliveCount ≤ 1)) := by
  unfold checkVictory
  split
  · rename_i hle
    split
    · rename_i hgo
      simp [hgo]
    · simp only []
      split <;> simp [decide_eq_true hle, GameState.open_popup]
  · rename_i hgt
    simp [hgt]

/-! ## popup bookkeeping for the start operations (they never open or close
a popup themselves) -/

theorem popup_remove_units (s : GameState) (i n : Nat) :
    (s.remove_units_from_city i n).1.popup = s.popup := by
  unfold GameState.remove_units_from_city
  split <;> rfl

theorem popup_start_construction (s : GameState) (i : Nat) (nm : String) :
    (s.start_construction i nm).1.popup = s.popup := by
  unfold GameState.start_construction
  simp only []
  repeat' split
  all_goals rfl

theorem popup_start_recruitment (s : GameState) (i : Nat) (nm : String) :
    (s.start_recruitment i nm).1.popup = s.popup := by
  unfold GameState.start_recruitment
  simp only []
  repeat' split
  all_goals rfl

theorem popup_start_attack (s : GameState) (a d : Nat) (amt : Option Nat) :
    (s.start_attack a d amt).1.popup = s.popup := by
  unfold GameState.start_attack
  split
  · rfl
  · split
    · rfl
    · split
      · rfl
      · split
        any_goals rfl
        simp only []
        repeat' split
        all_goals first
          | rfl
          | exact popup_remove_units s a _

theorem popup_open_popup (s : GameState) (t p : String) (ch : List String) :
    (s.open_popup t p ch).popup.isSome = true := rfl

/-- on_turn_start never clears game_over. -/
theorem gameOver_mono_on_turn_start {s : GameState} (i : Nat)
    (h : s.game_over = true) : (s.on_turn_start i).game_over = true := by
  unfold GameState.on_turn_start
  split
  · exact h
  · rw [checkVictory_game_over, gameOver_travelPhase]
    simp [setCiv_game_over, h]

/-- The game_over equation of on_turn_start: for a valid player index the
latch after the call is the old latch, or-ed with the alive count of the
resulting state having dropped to at most one. -/
theorem gameOver_on_turn_start_eq {s : GameState} (i : Nat)
    (h : i < s.civilizations.length) :
    ((s.on_turn_start i).game_over = true ↔
      (s.game_over = true ∨ (s.on_turn_start i).aliveCount ≤ 1)) := by
  unfold GameState.on_turn_start
  rw [List.get?_eq_get h]
  simp only []
  rw [checkVictory_game_over, gameOver_travelPhase, setCiv_game_over,
    aliveCount_of_civs_eq (checkVictory_civs _)]
  simp

/-- The parser arms never clear game_over. -/
theorem gameOver_doBuild {s : GameState} (parts : List String)
    (h : s.game_over = true) : (doBuild s parts).1.game_over = true := by
  unfold doBuild
  split
  · exact h
  · split
    · simp only []
      split
      · rw [open_popup_game_over, gameOver_start_construction]
        exact h
      · rw [gameOver_start_construction]
        exact h
    · exact h

theorem gameOver_doHire {s : GameState} (parts : List String)
    (h : s.game_over = true) : (doHire s parts).1.game_over = true := by
  unfold doHire
  split
  · exact h
  · split
    · simp only []
      split
      · rw [open_popup_game_over, gameOver_start_recruitment]
        exact h
      · rw [gameOver_start_recruitment]
        exact h
    · exact h

theorem gameOver_doAttack {s : GameState} (parts : List String)
    (h : s.game_over = true) : (doAttack s parts).1.game_over = true := by
  unfold doAttack
  split
  · exact h
  · split
    · simp only []
      split
      · rw [open_popup_game_over, gameOver_start_attack]
        exact h
      · rw [gameOver_start_attack]
        exact h
    · exact h

/-- submit_action never clears game_over. -/
theorem gameOver_mono_submit_action {s : GameState}
    (h : s.game_over = true) : (s.submit_action).1.game_over = true := by
  unfold GameState.submit_action
  simp only []
  split
  · exact h
  · split
    · exact gameOver_mono_on_turn_start _ h
    · have harm :
          (match (splitWs (lowerStr (trimStr s.action_input))).get? 0 with
            | some "build" => doBuild s (splitWs (lowerStr (trimStr s.action_input)))
            | some "hire" => doHire s (splitWs (lowerStr (trimStr s.action_input)))
            | some "recruit" => doHire s (splitWs (lowerStr (trimStr s.action_input)))
            | some "attack" => doAttack s (splitWs (lowerStr (trimStr s.action_input)))
            | _ => (s.open_popup "Action"
                ("Unknown action: " ++ lowerStr (trimStr s.action_input)) [],
                true)).1.game_over = true := by
        split
        · exact gameOver_doBuild _ h
        · exact gameOver_doHire _ h
        · exact gameOver_doHire _ h
        · exact gameOver_doAttack _ h
        · exact h
      split
      · exact harm
      · exact harm

/-- apply_action never clears game_over. -/
theorem gameOver_mono_applyAction {s : GameState} (txt : String)
    (h : s.game_over = true) : (applyAction s txt).1.game_over = true :=
  gameOver_mono_submit_action h

/-- Popup dispatch never clears game_over. -/
theorem gameOver_dispatchPopupChoice {s : GameState} (title ch : String)
    (h : s.game_over = true) :
    (dispatchPopupChoice s title ch).1.game_over = true := by
  unfold dispatchPopupChoice
  split
  · split
    · simp only []
      split
      · rw [open_popup_game_over, gameOver_start_construction]
        exact h
      · rw [gameOver_start_construction]
        exact h
    · exact h
  · split
    · split
      · simp only []
        split
        · rw [open_popup_game_over, gameOver_start_recruitment]
          exact h
        · rw [gameOver_start_recruitment]
          exact h
      · exact h
    · split
      · split
        · simp only []
          split
          · rw [open_popup_game_over, gameOver_start_attack]
            exact h
          · rw [gameOver_start_attack]
            exact h
        · exact h
      · exact h

/-- submit_popup never clears game_over. -/
theorem gameOver_mono_submit_popup {s : GameState}
    (h : s.game_over = true) : s.submit_popup.game_over = true := by
  unfold GameState.submit_popup
  split
  · exact h
  · split
    · split
      · simp only []
        split
        · exact gameOver_dispatchPopupChoice _ _ h
        · rw [closeClear_game_over]
          exact gameOver_dispatchPopupChoice _ _ h
      · rw [closeClear_game_over]
        exact h
    · rw [closeClear_game_over]
      exact h

/-- submit_popup_input never clears game_over. -/
theorem gameOver_mono_submitPopupInput {s : GameState} (txt : String)
    (h : s.game_over = true) : (submitPopupInput s txt).1.game_over = true := by
  unfold submitPopupInput
  split
  · exact h
  · exact gameOver_mono_submit_popup h

/-! ## Relating the submit_action return flag to the popup state -/

theorem doBuild_popup_iff {s : GameState} (parts : List String)
    (hpop : s.popup = none) :
    ((doBuild s parts).2 = true ↔ (doBuild s parts).1.popup.isSome = true) := by
  unfold doBuild
  split
  · simp [popup_open_popup]
  · split
    · simp only []
      split
      · simp [popup_open_popup]
      · simp [popup_start_construction, hpop]
    · simp [popup_open_popup]

theorem doHire_popup_iff {s : GameState} (parts : List String)
    (hpop : s.popup = none) :
    ((doHire s parts).2 = true ↔ (doHire s parts).1.popup.isSome = true) := by
  unfold doHire
  split
  · simp [popup_open_popup]
  · split
    · simp only []
      split
      · simp [popup_open_popup]
      · simp [popup_start_recruitment, hpop]
    · simp [popup_open_popup]

theorem doAttack_popup_iff {s : GameState} (parts : List String)
    (hpop : s.popup = none) :
    ((doAttack s parts).2 = true ↔ (doAttack s parts).1.popup.isSome = true) := by
  unfold doAttack
  split
  · simp [popup_open_popup]
  · split
    · simp only []
      split
      · simp [popup_open_popup]
      · simp [popup_start_attack, hpop]
    · simp [popup_open_popup]

/-- For a command that is not end-of-turn, starting from a state with no
open popup, the submit_action return flag says exactly whether a popup is
open afterwards. -/
theorem submit_action_popup_iff {s : GameState} (hpop : s.popup = none)
    (h1 : lowerStr (trimStr s.action_input) ≠ "end")
    (h2 : lowerStr (trimStr s.action_input) ≠ "end turn") :
    ((s.submit_action).2 = true ↔ (s.submit_action).1.popup.isSome = true) := by
  unfold GameState.submit_action
  simp only []
  split
  · simp [hpop]
  · split
    · rename_i hor
      rcases hor with h | h
      · exact absurd h h1
      · exact absurd h h2
    · have harm :
          ((match (splitWs (lowerStr (trimStr s.action_input))).get? 0 with
            | some "build" => doBuild s (splitWs (lowerStr (trimStr s.action_input)))
            | some "hire" => doHire s (splitWs (lowerStr (trimStr s.action_input)))
            | some "recruit" => doHire s (splitWs (lowerStr (trimStr s.action_input)))
            | some "attack" => doAttack s (splitWs (lowerStr (trimStr s.action_input)))
            | _ => (s.open_popup "Action"
                ("Unknown action: " ++ lowerStr (trimStr s.action_input)) [],
                true)) : GameState × Bool).2 = true ↔
          ((match (splitWs (lowerStr (trimStr s.action_input))).get? 0 with
            | some "build" => doBuild s (splitWs (lowerStr (trimStr s.action_input)))
            | some "hire" => doHire s (splitWs (lowerStr (trimStr s.action_input)))
            | some "recruit" => doHire s (splitWs (lowerStr (trimStr s.action_input)))
            | some "attack" => doAttack s (splitWs (lowerStr (trimStr s.action_input)))
            | _ => (s.open_popup "Action"
                ("Unknown action: " ++ lowerStr (trimStr s.action_input)) [],
                true)) : GameState × Bool).1.popup.isSome = true := by
        split
        · exact doBuild_popup_iff _ hpop
        · exact doHire_popup_iff _ hpop
        · exact doHire_popup_iff _ hpop
        · exact doAttack_popup_iff _ hpop
        · simp [popup_open_popup]
      split
      · exact harm
      · rename_i hr
        have hfalse : _ → False := fun hx => hr (harm.mpr hx)
        simp at hfalse
        simp [hfalse]

/-! ## The path search never steps onto a mountain -/

/-- Relaxing one neighbour only sets parent pointers on non-mountain
cells. -/
theorem parentInv_relaxStep {m : GameMap} {cost : Nat} {c : Cell}
    {st : (Cell → Option Nat) × (Cell → Option Cell) × List (Nat × Cell)}
    (off : Int × Int) (h : ParentInv m st.2.1) :
    ParentInv m (relaxStep m cost c st off).2.1 := by
  unfold relaxStep
  simp only []
  split
  · exact h
  · split
    · exact h
    · split
      · intro c2 hc2
        by_cases he : c2 = (c.1 + off.1, c.2 + off.2)
        · subst he
          rename_i hmt _
          exact hmt
        · refine h c2 ?_
          simpa [upd, he] using hc2
      · exact h

/-- Folding relaxation over the neighbour offsets preserves the parent
invariant. -/
theorem parentInv_foldl {m : GameMap} {cost : Nat} {c : Cell}
    (offs : List (Int × Int))
    {st : (Cell → Option Nat) × (Cell → Option Cell) × List (Nat × Cell)}
    (h : ParentInv m st.2.1) :
    ParentInv m (offs.foldl (relaxStep m cost c) st).2.1 := by
  induction offs generalizing st with
  | nil => exact h
  | cons off rest ih => exact ih (parentInv_relaxStep off h)

/-- Path reconstruction yields a nonempty list. -/
theorem reconstructPath_ne_nil {parent : Cell → Option Cell} {fuel : Nat}
    {cur : Cell} {l : List Cell}
    (h : reconstructPath parent fuel cur = some l) : l ≠ [] := by
  induction fuel generalizing cur l with
  | zero => simp [reconstructPath] at h
  | succ n ih =>
    unfold reconstructPath at h
    split at h
    · simp at h
      simp [h.symm]
    · rcases Option.map_eq_some'.mp h with ⟨l2, hl2, rfl⟩
      simp

/-- Every cell of a reconstructed path except the first has its parent
pointer set. -/
theorem reconstructPath_tail_parent {parent : Cell → Option Cell}
    {fuel : Nat} {cur : Cell} {l : List Cell}
    (h : reconstructPath parent fuel cur = some l) :
    ∀ c ∈ l.drop 1, (parent c).isSome = true := by
  induction fuel generalizing cur l with
  | zero => simp [reconstructPath] at h
  | succ n ih =>
    unfold reconstructPath at h
    split at h
    · simp at h
      simp [h.symm]
    · rename_i p hp
      rcases Option.map_eq_some'.mp h with ⟨l2, hl2, rfl⟩
      have hne := reconstructPath_ne_nil hl2
      rcases l2 with _ | ⟨hd, tl⟩
      · exact absurd rfl hne
      · intro c hc
        simp only [List.cons_append, List.drop_succ_cons, List.drop_zero,
          List.mem_append, List.mem_singleton] at hc
        rcases hc with hc | rfl
        · exact ih hl2 c (by simpa using hc)
        · simp [hp]

/-- Reconstruction from a mountain-free parent matrix yields a path whose
tail avoids mountains. -/
theorem reconstructPath_no_mountain {m : GameMap}
    {parent : Cell → Option Cell} {fuel : Nat} {cur : Cell} {l : List Cell}
    (hinv : ParentInv m parent)
    (h : reconstructPath parent fuel cur = some l) :
    ∀ c ∈ l.drop 1, tileAt m c.1 c.2 ≠ Terrain.Mountain :=
  fun c hc => hinv c (reconstructPath_tail_parent h c hc)

/-- The main loop preserves the parent invariant and hands it to the
reconstruction. -/
theorem dijkstraGo_no_mountain {m : GameMap} {dst : Cell} {fuel : Nat}
    {dist : Cell → Option Nat} {parent : Cell → Option Cell}
    {heap : List (Nat × Cell)} {l : List Cell}
    (hinv : ParentInv m parent)
    (h : dijkstraGo m dst fuel dist parent heap = some l) :
    ∀ c ∈ l.drop 1, tileAt m c.1 c.2 ≠ Terrain.Mountain := by
  induction fuel generalizing dist parent heap l with
  | zero => simp [dijkstraGo] at h
  | succ n ih =>
    unfold dijkstraGo at h
    simp only [] at h
    split at h
    · simp at h
    · split at h
      · exact ih hinv h
      · split at h
        · exact reconstructPath_no_mountain hinv h
        · exact ih (parentInv_foldl _ hinv) h

/-- bfs_path never steps onto a mountain tile after the start cell. -/
theorem bfsPath_no_mountain {m : GameMap} {src dst : Cell} {l : List Cell}
    (h : bfsPath m src dst = some l) :
    ∀ c ∈ l.drop 1, tileAt m c.1 c.2 ≠ Terrain.Mountain := by
  unfold bfsPath at h
  split at h
  · simp at h
  · split at h
    · simp at h
    · exact dijkstraGo_no_mountain (fun c hc => by simp at hc) h

theorem travels_remove_units (s : GameState) (i n : Nat) :
    (s.remove_units_from_city i n).1.travels = s.travels := by
  unfold GameState.remove_units_from_city
  split <;> rfl

theorem map_remove_units (s : GameState) (i n : Nat) :
    (s.remove_units_from_city i n).1.map = s.map := by
  unfold GameState.remove_units_from_city
  split <;> rfl

/-- The empty string is a prefix of every string. -/
theorem strStartsWith_empty (x : String) : strStartsWith x "" = true := by
  unfold strStartsWith
  cases x.toList <;> rfl

/-! ## The claims -/

/-- C1: evaluation of on_turn_start at the failing input for the casualty
rule.  A travel of 6 units arrives while both sides are alive; defender
power is 6 (stacks A x 5 and B x 1, both templates attack 1), so the
attack fails and floor(6 / 2) = 3 casualties are removed.  The claim (and
the doc comment of remove_units_from_city) says casualties are removed
smallest-stack-first, which would leave [A x 3]; the code removes in
stack-list order and leaves [A x 2, B x 1]. -/
theorem c1_battle_casualties_list_order :
    ((casualtyState.on_turn_start 0).civilizations.get? 1).map
        (fun c => c.city.units.units) = some [⟨"A", 2⟩, ⟨"B", 1⟩] ∧
    ((casualtyState.on_turn_start 0).civilizations.get? 1).map
        (fun c => c.alive) = some true ∧
    ((casualtyState.on_turn_start 0).civilizations.get? 1).map
        (fun c => c.city.units.units) ≠ some [⟨"A", 3⟩] :=
  ⟨by decide, by decide, by decide⟩

/-- C2: evaluation of start_attack at the failing input for the
rollback-on-error rule.  The defender city is unreachable (mountain wall),
start_attack fails with the no-path error, yet the attacker's five warriors
are gone: the state is not restored on this recoverable validation
failure. -/
theorem c2_nopath_error_loses_attacker_units :
    (noPathState.start_attack 0 1 none).2 =
      some "No path to target (blocked by terrain)" ∧
    (noPathState.civilizations.get? 0).map (fun c => c.city.units.units) =
      some [⟨"Warrior", 5⟩] ∧
    ((noPathState.start_attack 0 1 none).1.civilizations.get? 0).map
      (fun c => c.city.units.units) = some [] ∧
    (noPathState.start_attack 0 1 none).1 ≠ noPathState :=
  ⟨by decide, by decide, by decide, by decide⟩

/-- C4: in every state reachable from a fresh game through the public
operations, completed buildings plus queued constructions fit in the
building slots and unit stacks plus queued recruitments fit in the unit
slots, for every civilization. -/
theorem c4_slot_invariant_reachable : ∀ s : GameState, Reachable s → SlotInv s := by
  intro s h
  induction h with
  | init m =>
    intro c hc
    simp only [initState, List.mem_cons, List.not_mem_nil, or_false] at hc
    rcases hc with rfl | rfl <;> exact ⟨by decide, by decide⟩
  | step hr hp ih =>
    cases hp with
    | action txt => exact slotInv_applyAction txt ih
    | popup txt => exact slotInv_submitPopupInput txt ih
    | construction i name => exact slotInv_start_construction i name ih
    | recruitment i name => exact slotInv_start_recruitment i name ih
    | attack a d amt => exact slotInv_start_attack a d amt ih
    | turnStart i => exact slotInv_on_turn_start i ih

/-- C4 witness: the invariant at a concrete reachable state. -/
theorem c4_slot_invariant_witness : SlotInv (initState blockedMap) :=
  c4_slot_invariant_reachable _ (Reachable.init blockedMap)

/-- C5: the game-over latch starts false, on_turn_start sets it exactly
when the alive count (after battle resolution) is at most one and it is
not already set, and no public operation ever clears it. -/
theorem c5_game_over_latch :
    (∀ m : GameMap, (initState m).game_over = false) ∧
    (∀ (s : GameState) (i : Nat), i < s.civilizations.length →
      ((s.on_turn_start i).game_over = true ↔
        (s.game_over = true ∨ (s.on_turn_start i).aliveCount ≤ 1))) ∧
    (∀ s s2 : GameState, PublicStep s s2 →
      s.game_over = true → s2.game_over = true) := by
  refine ⟨fun m => rfl, fun s i h => gameOver_on_turn_start_eq i h, ?_⟩
  intro s s2 hstep hgo
  cases hstep with
  | action txt => exact gameOver_mono_applyAction txt hgo
  | popup txt => exact gameOver_mono_submitPopupInput txt hgo
  | construction i name => rw [gameOver_start_construction]; exact hgo
  | recruitment i name => rw [gameOver_start_recruitment]; exact hgo
  | attack a d amt => rw [gameOver_start_attack]; exact hgo
  | turnStart i => exact gameOver_mono_on_turn_start i hgo

/-- C5 witness: the three parts at concrete inputs (a fresh state, a
turn-start call on a two-civilization state, and a construction started
after game over). -/
theorem c5_game_over_latch_witness :
    (initState blockedMap).game_over = false ∧
    (0 < casualtyState.civilizations.length ∧
      ((casualtyState.on_turn_start 0).game_over = true ↔
        (casualtyState.game_over = true ∨
          (casualtyState.on_turn_start 0).aliveCount ≤ 1))) ∧
    (overState.start_construction 0 "Farm").1.game_over = true :=
  ⟨c5_game_over_latch.1 blockedMap,
   ⟨by decide, c5_game_over_latch.2.1 casualtyState 0 (by decide)⟩,
   c5_game_over_latch.2.2 overState _
     (PublicStep.construction overState 0 "Farm") rfl⟩

/-- C6: popup choice resolution: an exact 1-based numeric index is tried
first, then a case-insensitive prefix match taking the first hit; for the
choices [Farm, Barracks] the input 1 resolves to Farm and the input bar
resolves to Barracks; an input resolving to no choice dispatches no
operation (submit_popup only closes the popup and clears the action
input). -/
theorem c6_popup_input_resolution :
    popupChosen ⟨"Build", "p", ["Farm", "Barracks"], "1"⟩ = some "Farm" ∧
    popupChosen ⟨"Build", "p", ["Farm", "Barracks"], "bar"⟩ = some "Barracks" ∧
    (∀ (s : GameState) (p : Popup), s.popup = some p → p.choices ≠ [] →
      popupChosen p = none → s.submit_popup = closeClear s) := by
  refine ⟨by decide, by decide, ?_⟩
  intro s p hp hch hnone
  unfold GameState.submit_popup
  rw [hp]
  simp only [hnone]
  split <;> rfl

/-- C6 witness: the general no-dispatch part applied at a concrete state
with the unresolvable input zzz, next to the two concrete resolutions. -/
theorem c6_popup_input_resolution_witness :
    popupChosen ⟨"Build", "p", ["Farm", "Barracks"], "1"⟩ = some "Farm" ∧
    (popupState "zzz").popup =
      some ⟨"Build", "Choose building type:", ["Farm", "Barracks"], "zzz"⟩ ∧
    (popupState "zzz").submit_popup = closeClear (popupState "zzz") :=
  ⟨c6_popup_input_resolution.1, rfl,
   c6_popup_input_resolution.2.2 (popupState "zzz") _ rfl (by decide) (by decide)⟩

/-- C8 counterexample: apply_action with the end command returns false even
though a popup is open when the call returns — the travel resolving during
the triggered on_turn_start opens a battle popup, and the subsequent
victory check replaces it with the game-over popup. -/
theorem c8_end_popup_counterexample :
    (applyAction endPopupState "end").2 = false ∧
    (applyAction endPopupState "end").1.popup.isSome = true :=
  ⟨by decide, by decide⟩

/-- C8 amended: for a command other than end / end turn, starting with no
popup open, apply_action returns true exactly when a popup is open at
return; an end command returns false even when the turn-start processing it
triggers opens a popup. -/
theorem c8_apply_action_popup_iff :
    ∀ (s : GameState) (txt : String), s.popup = none →
      lowerStr (trimStr txt) ≠ "end" → lowerStr (trimStr txt) ≠ "end turn" →
      ((applyAction s txt).2 = true ↔
        (applyAction s txt).1.popup.isSome = true) := by
  intro s txt hpop h1 h2
  exact submit_action_popup_iff hpop h1 h2

/-- C8 witness: the amended equivalence at a concrete state and command. -/
theorem c8_apply_action_popup_iff_witness :
    noPathState.popup = none ∧
    lowerStr (trimStr "build farm") ≠ "end" ∧
    lowerStr (trimStr "build farm") ≠ "end turn" ∧
    ((applyAction noPathState "build farm").2 = true ↔
      (applyAction noPathState "build farm").1.popup.isSome = true) :=
  ⟨rfl, by decide, by decide,
   c8_apply_action_popup_iff noPathState "build farm" rfl (by decide) (by decide)⟩

/-- C9 counterexample: start_construction succeeds (and changes the state)
although the game is already over — the construction and recruitment paths
perform no game-over or alive check. -/
theorem c9_dead_checks_counterexample :
    overState.game_over = true ∧
    (overState.start_construction 0 "Farm").2 = none ∧
    (overState.start_construction 0 "Farm").1 ≠ overState :=
  ⟨rfl, by decide, by decide⟩

/-- C9 amended: start_attack refuses the operation and leaves the state
unchanged whenever the game is over or the attacker or defender alive flag
is false; start_construction and start_recruitment perform no such
checks. -/
theorem c9_attack_refusal_amended :
    ∀ (s : GameState) (a d : Nat) (amt : Option Nat),
      (s.game_over = true ∨ civAlive s a = false ∨ civAlive s d = false) →
      (s.start_attack a d amt).1 = s ∧
        (s.start_attack a d amt).2.isSome = true := by
  intro s a d amt hyp
  unfold GameState.start_attack
  split
  · exact ⟨rfl, rfl⟩
  · split
    · exact ⟨rfl, rfl⟩
    · split
      · exact ⟨rfl, rfl⟩
      · rename_i hlen hneq hgo
        rcases ha : s.civilizations.get? a with _ | atk
        · simp [ha]
        · rcases hd : s.civilizations.get? d with _ | dfd
          · simp [ha, hd]
          · simp only [ha, hd]
            split
            · exact ⟨rfl, rfl⟩
            · split
              · exact ⟨rfl, rfl⟩
              · rename_i hatk hdfd
                exfalso
                rcases hyp with hgo2 | hda | hdd
                · exact hgo hgo2
                · unfold civAlive at hda
                  rw [ha] at hda
                  simp only [] at hda
                  exact hatk hda
                · unfold civAlive at hdd
                  rw [hd] at hdd
                  simp only [] at hdd
                  exact hdfd hdd

/-- C9 witness: the amended refusal at a concrete state with the game
already over. -/
theorem c9_attack_refusal_witness :
    overState.game_over = true ∧
    ((overState.start_attack 0 1 none).1 = overState ∧
      (overState.start_attack 0 1 none).2.isSome = true) :=
  ⟨rfl, c9_attack_refusal_amended overState 0 1 none (Or.inl rfl)⟩

/-- C10: an empty input submitted against a popup with a non-empty choice
list resolves to the first choice (the empty string is a prefix of every
choice in the case-insensitive prefix match) and its operation is
dispatched; an empty popup input is not a no-op. -/
theorem c10_empty_popup_input_first_choice :
    ∀ (s : GameState) (p : Popup) (c : String) (cs : List String),
      s.popup = some p → p.choices = c :: cs → p.input = "" →
      popupChosen p = some c ∧
      s.submit_popup =
        (if (dispatchPopupChoice s p.title c).2 then
          (dispatchPopupChoice s p.title c).1
        else closeClear (dispatchPopupChoice s p.title c).1) := by
  intro s p c cs hp hch hin
  have hchosen : popupChosen p = some c := by
    unfold popupChosen
    have htrim : trimStr "" = "" := rfl
    rw [hin, hch, htrim]
    simp only []
    have hparse : parseNum "" = none := rfl
    rw [hparse]
    exact List.find?_cons_of_pos _ (strStartsWith_empty (lowerStr c))
  refine ⟨hchosen, ?_⟩
  unfold GameState.submit_popup
  rw [hp]
  have hne : p.choices ≠ [] := by
    rw [hch]
    simp
  simp only [hchosen]
  rw [if_pos hne]

/-- C10 witness: the empty input against the Build popup with choices
[Farm, Barracks] selects Farm and dispatches its construction. -/
theorem c10_empty_popup_input_witness :
    (popupState "").popup =
      some ⟨"Build", "Choose building type:", ["Farm", "Barracks"], ""⟩ ∧
    popupChosen ⟨"Build", "Choose building type:", ["Farm", "Barracks"], ""⟩ =
      some "Farm" ∧
    (popupState "").submit_popup =
      (if (dispatchPopupChoice (popupState "")
            (Popup.mk "Build" "Choose building type:" ["Farm", "Barracks"] "").title
            "Farm").2 then
        (dispatchPopupChoice (popupState "")
          (Popup.mk "Build" "Choose building type:" ["Farm", "Barracks"] "").title
          "Farm").1
      else closeClear (dispatchPopupChoice (popupState "")
        (Popup.mk "Build" "Choose building type:" ["Farm", "Barracks"] "").title
        "Farm").1) :=
  ⟨rfl,
   (c10_empty_popup_input_first_choice (popupState "") _ "Farm" ["Barracks"]
     rfl rfl rfl).1,
   (c10_empty_popup_input_first_choice (popupState "") _ "Farm" ["Barracks"]
     rfl rfl rfl).2⟩

/-- C3: the start_construction contract: it fails (error, state unchanged)
when the template name is unknown, when a construction is already queued,
when completed buildings plus queued constructions fill the slots, or when
the balance is below the template cost; on success it debits exactly the
cost (never driving the balance negative) and appends exactly one
Construction with remaining = total = build_time. -/
theorem c3_start_construction_contract :
    ∀ (s : GameState) (i : Nat) (nm : String) (civ : Civilization),
      s.civilizations.get? i = some civ →
      ((s.buildings.find? (fun b => b.name == nm) = none →
          (s.start_construction i nm).1 = s ∧
          (s.start_construction i nm).2.isSome = true) ∧
       (civ.constructions ≠ [] →
          (s.start_construction i nm).1 = s ∧
          (s.start_construction i nm).2.isSome = true) ∧
       (civ.city.nb_slots_buildings ≤
            civ.city.buildings.elements.length + civ.constructions.length →
          (s.start_construction i nm).1 = s ∧
          (s.start_construction i nm).2.isSome = true) ∧
       (∀ bdef, s.buildings.find? (fun b => b.name == nm) = some bdef →
          civ.resources.ressources < (bdef.cost : Int) →
          (s.start_construction i nm).1 = s ∧
          (s.start_construction i nm).2.isSome = true) ∧
       (∀ bdef, s.buildings.find? (fun b => b.name == nm) = some bdef →
          (s.start_construction i nm).2 = none →
          (s.start_construction i nm).1 = s.setCiv i
            { civ with
              resources := ⟨civ.resources.ressources - (bdef.cost : Int)⟩,
              constructions := civ.constructions ++
                [{ id_building := bdef.name, remaining := bdef.build_time,
                   total := bdef.build_time }] } ∧
          0 ≤ civ.resources.ressources - (bdef.cost : Int))) := by
  intro s i nm civ hg
  unfold GameState.start_construction
  cases hf : s.buildings.find? (fun b => b.name == nm) with
  | none =>
    refine ⟨fun _ => ⟨rfl, rfl⟩, fun _ => ⟨rfl, rfl⟩, fun _ => ⟨rfl, rfl⟩,
      ?_, ?_⟩ <;>
      (intro bdef hb; cases hb)
  | some bdef =>
    rw [hg]
    simp only []
    refine ⟨?_, ?_, ?_, ?_, ?_⟩
    · intro hb
      cases hb
    · intro hne
      rw [if_pos hne]
      exact ⟨rfl, rfl⟩
    · intro hslots
      by_cases hne : civ.constructions ≠ []
      · rw [if_pos hne]
        exact ⟨rfl, rfl⟩
      · rw [if_neg hne, if_pos hslots]
        exact ⟨rfl, rfl⟩
    · intro bdef2 hb hres
      injection hb with hb
      subst hb
      by_cases hne : civ.constructions ≠ []
      · rw [if_pos hne]
        exact ⟨rfl, rfl⟩
      · rw [if_neg hne]
        by_cases hslots : civ.city.nb_slots_buildings ≤
            civ.city.buildings.elements.length + civ.constructions.length
        · rw [if_pos hslots]
          exact ⟨rfl, rfl⟩
        · rw [if_neg hslots, if_pos hres]
          exact ⟨rfl, rfl⟩
    · intro bdef2 hb hnone
      injection hb with hb
      subst hb
      by_cases hne : civ.constructions ≠ []
      · rw [if_pos hne] at hnone
        cases hnone
      · rw [if_neg hne] at hnone ⊢
        by_cases hslots : civ.city.nb_slots_buildings ≤
            civ.city.buildings.elements.length + civ.constructions.length
        · rw [if_pos hslots] at hnone
          cases hnone
        · rw [if_neg hslots] at hnone ⊢
          by_cases hres : civ.resources.ressources < (bdef.cost : Int)
          · rw [if_pos hres] at hnone
            cases hnone
          · rw [if_neg hres] at hnone ⊢
            exact ⟨rfl, by omega⟩

/-- C3 witness: a successful Farm construction at a concrete state (cost
10 debited from a balance of 100, one Construction with remaining = total
= 2 queued). -/
theorem c3_start_construction_witness :
    noPathState.civilizations.get? 0 = some (mkCiv "A" 0 [⟨"Warrior", 5⟩]) ∧
    noPathState.buildings.find? (fun b => b.name == "Farm") = some farmDef ∧
    (noPathState.start_construction 0 "Farm").2 = none ∧
    ((noPathState.start_construction 0 "Farm").1 = noPathState.setCiv 0
        { mkCiv "A" 0 [⟨"Warrior", 5⟩] with
          resources := ⟨(mkCiv "A" 0 [⟨"Warrior", 5⟩]).resources.ressources -
            (farmDef.cost : Int)⟩,
          constructions := (mkCiv "A" 0 [⟨"Warrior", 5⟩]).constructions ++
            [{ id_building := farmDef.name, remaining := farmDef.build_time,
               total := farmDef.build_time }] } ∧
      0 ≤ (mkCiv "A" 0 [⟨"Warrior", 5⟩]).resources.ressources -
        (farmDef.cost : Int)) :=
  ⟨rfl, by decide, by decide,
   (c3_start_construction_contract noPathState 0 "Farm" _ rfl).2.2.2.2 farmDef
     (by decide) (by decide)⟩

/-- C7 counterexample: two parts of the claim fail on the code.  First,
the scaled integer step cost of a water tile (1000) is not exactly three
times the step cost of a land tile (round(1000 / 3) = 333, and
3 * 333 = 999).  Second, the recorded travel time is not the ceiling of
the summed per-step costs in turns: on wideMap the returned path enters
Water, Water, Plains, Plains, Plains, whose exact per-step sum is 9 thirds
of a turn — ceiling 3 turns — but the f64 accumulation the source performs
rounds 1.0 + 1.0 + 1/3 + 1/3 + 1/3 to just above 3.0, and the created
Travel records remaining = total = 4. -/
theorem c7_claim_counterexample :
    stepCostScaled Terrain.Water ≠ 3 * stepCostScaled Terrain.Plains ∧
    (longAttackState.start_attack 0 1 none).2 = none ∧
    (longAttackState.start_attack 0 1 none).1.travels =
      [⟨0, 1, 5, 4, 4, [(0, 0), (1, 0), (2, 0), (3, 0), (4, 0), (5, 0)]⟩] ∧
    (pathThirdsSpec longAttackState.map
        [(0, 0), (1, 0), (2, 0), (3, 0), (4, 0), (5, 0)] + 2) / 3 = 3 :=
  ⟨by decide, by decide, by decide, by decide⟩

/-- C7 amended: in the weighted search, the scaled integer step costs are
1000 per water step and 333 per land step (about one third of a turn, so
water costs about — but not exactly — three times land); a returned path
never steps onto a mountain after its first cell; and a successful
start_attack records a Travel whose remaining = total is the ceiling of
the f64 accumulation of the per-step times (1.0 per water step, 1.0 / 3.0
per land step, each addition rounded to binary64, modelled bit-exactly by
pathTimeScaled at scale 2 ^ 54) with a minimum of one turn — which, by the
counterexample, can exceed the ceiling of the exact per-step sum. -/
theorem c7_pathfinding_amended :
    (stepCostScaled Terrain.Water = 1000 ∧
     stepCostScaled Terrain.Plains = 333 ∧
     stepCostScaled Terrain.Desert = 333) ∧
    (∀ (m : GameMap) (src dst : Cell) (path : List Cell),
      bfsPath m src dst = some path →
      ∀ c ∈ path.drop 1, tileAt m c.1 c.2 ≠ Terrain.Mountain) ∧
    (∀ (s : GameState) (a d : Nat) (amt : Option Nat) (s2 : GameState),
      s.start_attack a d amt = (s2, none) →
      ∃ tr : Travel,
        s2.travels = s.travels ++ [tr] ∧
        tr.remaining = tr.total ∧
        tr.total = max 1 (f64CeilScaled (pathTimeScaled s.map tr.path)) ∧
        1 ≤ tr.remaining ∧
        (∀ c ∈ tr.path.drop 1, tileAt s.map c.1 c.2 ≠ Terrain.Mountain)) := by
  refine ⟨⟨rfl, rfl, rfl⟩, fun m src dst path h => bfsPath_no_mountain h, ?_⟩
  intro s a d amt s2 h
  unfold GameState.start_attack at h
  split at h
  · simp at h
  · split at h
    · simp at h
    · split at h
      · simp at h
      · rcases ha : s.civilizations.get? a with _ | atk <;> rw [ha] at h
        · simp at h
        · rcases hd : s.civilizations.get? d with _ | dfd <;> rw [hd] at h
          · simp at h
          · simp only [] at h
            split at h
            · simp at h
            · split at h
              · simp at h
              · split at h
                · simp at h
                · split at h
                  · simp at h
                  · split at h
                    · simp at h
                    · split at h
                      · simp at h
                      · rename_i path hpath
                        rw [Prod.mk.injEq] at h
                        obtain ⟨hs2, -⟩ := h
                        subst hs2
                        rw [map_remove_units] at hpath
                        simp only [travels_remove_units, map_remove_units]
                        refine ⟨_, rfl, rfl, ?_, ?_, ?_⟩
                        · simp only []
                          split
                          · rename_i h0
                            rw [h0]
                            rfl
                          · rename_i h0
                            exact (Nat.max_eq_right (by omega)).symm
                        · simp only []
                          split
                          · omega
                          · omega
                        · intro c hc
                          exact bfsPath_no_mountain hpath c hc

/-- C7 witness: a concrete successful attack across one plains step:
the travel takes max(1, ceil(1/3)) = 1 turn and its path avoids
mountains. -/
theorem c7_pathfinding_witness :
    openAttackState.start_attack 0 1 none =
      ((openAttackState.start_attack 0 1 none).1, none) ∧
    (∀ c ∈ [((0 : Int), (0 : Int)), (1, 0)].drop 1,
      tileAt openMap c.1 c.2 ≠ Terrain.Mountain) ∧
    (∃ tr : Travel,
      (openAttackState.start_attack 0 1 none).1.travels =
        openAttackState.travels ++ [tr] ∧
      tr.remaining = tr.total ∧
      tr.total = max 1 (f64CeilScaled (pathTimeScaled openAttackState.map tr.path)) ∧
      1 ≤ tr.remaining ∧
      (∀ c ∈ tr.path.drop 1,
        tileAt openAttackState.map c.1 c.2 ≠ Terrain.Mountain)) :=
  ⟨by decide,
   c7_pathfinding_amended.2.1 openMap (0, 0) (1, 0) [(0, 0), (1, 0)] (by decide),
   c7_pathfinding_amended.2.2 openAttackState 0 1 none _ (by decide)⟩

end CLIv
